import Mathlib

/-!
Verification of the ForzudoOS core: the 5/3/1 cycle engine, the plate
rounding, the natural-language reminder parser, and the scheduler's job
evaluation (`src/forzudo/context.py`, `src/forzudo/parser.py`,
`src/forzudo/scheduler.py`).

Conventions of the embedding:
* Python ints are `ℤ` (or `ℕ` where the source value is a count); `//` and `%`
  always have positive literal divisors here, where Python floor division and
  Lean `Int.ediv`/`Int.emod` agree.
* Python floats are `ℚ`; `round` is round-half-to-even (`roundHalfEven`).
  Where the binary64 representation is observable (the weight table products),
  double rounding is modelled explicitly by `roundB64`.
* `datetime` values are modelled by the two operations the code uses:
  subtraction (a rational timestamp, measured in seconds with the program
  start date as origin) and `strftime("%d/%m/%Y")` (a pre-rendered string).
* Effectful acquisition (`datetime.now()`, the remote last-workout lookup,
  the job file) is passed explicitly as arguments and returned state.
-/

namespace Forzudo

/-! ## Cycle engine (context.py) -/

def MACRO_CYCLE_LENGTH : ℤ := 7

/-- Reps prescription: Python stores either an int (`5`) or a string (`"5+"`). -/
inductive Reps where
  | num (n : ℕ)
  | txt (s : String)
deriving DecidableEq

structure SetSpec where
  pct : ℚ
  reps : Reps
deriving DecidableEq

structure WeekConfig where
  name : String
  sets : List SetSpec
deriving DecidableEq

/-- CYCLE_WEEKS table from context.py. -/
def CYCLE_WEEKS (week : ℤ) : Option WeekConfig :=
  if week = 1 then some ⟨"Semana 5s", [⟨65/100, .num 5⟩, ⟨75/100, .num 5⟩, ⟨85/100, .txt "5+"⟩]⟩
  else if week = 2 then some ⟨"Semana 3s", [⟨70/100, .num 3⟩, ⟨80/100, .num 3⟩, ⟨90/100, .txt "3+"⟩]⟩
  else if week = 3 then some ⟨"Semana 531", [⟨75/100, .num 5⟩, ⟨85/100, .num 3⟩, ⟨95/100, .txt "1+"⟩]⟩
  else if week = 4 then some ⟨"Deload", [⟨40/100, .num 5⟩, ⟨50/100, .num 5⟩, ⟨60/100, .num 5⟩]⟩
  else none

/-- TRAINING_MAX table. -/
def TRAINING_MAX (lift : String) : Option ℚ :=
  if lift = "ohp" then some 58
  else if lift = "deadlift" then some 140
  else if lift = "bench" then some 76
  else if lift = "squat" then some 80
  else none

/-- TM_INCREMENT table. -/
def TM_INCREMENT (lift : String) : Option ℚ :=
  if lift = "ohp" then some 2
  else if lift = "deadlift" then some 4
  else if lift = "bench" then some 2
  else if lift = "squat" then some 4
  else none

structure CycleState where
  week_in_macro : ℤ
  week_type : ℤ
  week_name : String
  macro_num : ℤ
  tm_bumps_completed : ℤ
  completed_weeks : ℤ
deriving DecidableEq

/-- The `for m in range(macro_num)` loop of `get_cycle_state` that accumulates
`total_completed_blocks`. -/
def tmBumpsLoop (macro_num week_in_macro : ℤ) : ℤ :=
  (List.range macro_num.toNat).foldl
    (fun (acc : ℤ) (m : ℕ) =>
      if (m : ℤ) < macro_num - 1 then acc + 2
      else acc + (if 3 < week_in_macro then 1 else 0) + (if 6 < week_in_macro then 1 else 0))
    0

/-- `get_cycle_state` from context.py. -/
def get_cycle_state (total_sessions : ℤ) : CycleState :=
  let completed_weeks := total_sessions / 4
  let macro_num := completed_weeks / MACRO_CYCLE_LENGTH + 1
  let week_in_macro := completed_weeks % MACRO_CYCLE_LENGTH + 1
  let week_type :=
    if week_in_macro ≤ 3 then week_in_macro
    else if week_in_macro ≤ 6 then week_in_macro - 3
    else 4
  { week_in_macro := week_in_macro
    week_type := week_type
    week_name := ((CYCLE_WEEKS week_type).map WeekConfig.name).getD "?"
    macro_num := macro_num
    tm_bumps_completed := tmBumpsLoop macro_num week_in_macro
    completed_weeks := completed_weeks }

/-- `round(q)` of Python: round half to even. -/
def roundHalfEven (q : ℚ) : ℤ :=
  if q - ⌊q⌋ < 1/2 then ⌊q⌋
  else if 1/2 < q - ⌊q⌋ then ⌊q⌋ + 1
  else if ⌊q⌋ % 2 = 0 then ⌊q⌋ else ⌊q⌋ + 1

/-- `round_to_plate` from context.py: `round(weight / 2) * 2`. -/
def round_to_plate (weight : ℚ) : ℤ :=
  roundHalfEven (weight / 2) * 2

/-- `get_effective_tm` from context.py. -/
def get_effective_tm (lift : String) (tm_bumps : ℤ) : ℚ :=
  (TRAINING_MAX lift).getD 0 + (TM_INCREMENT lift).getD 2 * tm_bumps

structure WeightSpec where
  weight : ℤ
  reps : Reps
  pct : ℚ
deriving DecidableEq

/-- `get_expected_weights` from context.py with the product `tm * s["pct"]`
taken in exact rationals: an idealization of the double-precision product the
program computes.  It is used below only where the structure of the sets list
matters, never the load values; `get_expected_weights_float` is the faithful
model of the load arithmetic, and the two differ at inputs where the float
product falls on the other side of a rounding boundary (`tm = 90` with pct
`0.70`). -/
def get_expected_weights (lift : String) (week : ℤ) (tm_bumps : ℤ) : Option (List WeightSpec) :=
  let tm := get_effective_tm lift tm_bumps
  if tm = 0 then none
  else
    match CYCLE_WEEKS week with
    | none => none
    | some wc => some (wc.sets.map fun s => ⟨round_to_plate (tm * s.pct), s.reps, s.pct⟩)

/-- Binary64 rounding: the IEEE 754 double nearest to `q`, ties to even
significand.  The exponent is unbounded (overflow to infinity and subnormal
underflow are not modelled; every magnitude reaching this function here is far
inside the normal range). -/
def roundB64 (q : ℚ) : ℚ :=
  if q = 0 then 0
  else
    roundHalfEven (q / 2 ^ (Int.log 2 |q| - 52)) * 2 ^ (Int.log 2 |q| - 52)

/-- CYCLE_WEEKS as the running program holds it: each percentage literal is
the binary64 double nearest to the written decimal. -/
def CYCLE_WEEKS_F (week : ℤ) : Option WeekConfig :=
  if week = 1 then some ⟨"Semana 5s",
    [⟨roundB64 (65/100), .num 5⟩, ⟨roundB64 (75/100), .num 5⟩, ⟨roundB64 (85/100), .txt "5+"⟩]⟩
  else if week = 2 then some ⟨"Semana 3s",
    [⟨roundB64 (70/100), .num 3⟩, ⟨roundB64 (80/100), .num 3⟩, ⟨roundB64 (90/100), .txt "3+"⟩]⟩
  else if week = 3 then some ⟨"Semana 531",
    [⟨roundB64 (75/100), .num 5⟩, ⟨roundB64 (85/100), .num 3⟩, ⟨roundB64 (95/100), .txt "1+"⟩]⟩
  else if week = 4 then some ⟨"Deload",
    [⟨roundB64 (40/100), .num 5⟩, ⟨roundB64 (50/100), .num 5⟩, ⟨roundB64 (60/100), .num 5⟩]⟩
  else none

/-- `get_expected_weights` with the float arithmetic of the source made
explicit: `tm` is an exact Python int, `tm * s["pct"]` converts `tm` to a
double and multiplies with one binary64 rounding, and the halving inside
`round_to_plate` is exact on a double (an exponent shift), as is
`round(...) * 2` on Python ints. -/
def get_expected_weights_float (lift : String) (week : ℤ) (tm_bumps : ℤ) :
    Option (List WeightSpec) :=
  let tm := get_effective_tm lift tm_bumps
  if tm = 0 then none
  else
    match CYCLE_WEEKS_F week with
    | none => none
    | some wc => some (wc.sets.map fun s =>
        ⟨round_to_plate (roundB64 (roundB64 tm * s.pct)), s.reps, s.pct⟩)

structure DayConfig where
  name : String
  main_lift : String
  focus : String
  color : String
deriving DecidableEq

/-- DAY_CONFIG table. -/
def DAY_CONFIG (d : ℤ) : Option DayConfig :=
  if d = 1 then some ⟨"Día 1 - OHP", "ohp", "Press + Hombros", "#f97316"⟩
  else if d = 2 then some ⟨"Día 2 - Deadlift", "deadlift", "Peso Muerto", "#ef4444"⟩
  else if d = 3 then some ⟨"Día 3 - Bench", "bench", "Press de Banca", "#3b82f6"⟩
  else if d = 4 then some ⟨"Día 4 - Squat", "squat", "Sentadilla", "#22c55e"⟩
  else none

structure NextSession where
  day_name : String
  focus : String
  main_lift : String
  week_name : String
  macro_num : ℤ
  week_in_macro : ℤ
  working_sets : List WeightSpec
deriving DecidableEq

/-- `get_next_session` from context.py; `DAY_CONFIG.get(day_num, DAY_CONFIG[1])`. -/
def get_next_session (day_num : ℤ) (cs : CycleState) : NextSession :=
  let dc := (DAY_CONFIG day_num).getD ⟨"Día 1 - OHP", "ohp", "Press + Hombros", "#f97316"⟩
  let lift := dc.main_lift
  let weights := get_expected_weights lift cs.week_type cs.tm_bumps_completed
  { day_name := dc.name
    focus := dc.focus
    main_lift := lift
    week_name := cs.week_name
    macro_num := cs.macro_num
    week_in_macro := CycleState.week_in_macro cs
    working_sets := weights.getD [] }

/-! ## Intent parser (parser.py)

The three regular expressions that `ReminderIntent.parse` actually searches are
embedded as dedicated matchers.  Each matcher follows Python `re` semantics:
`re.search` tries start positions left to right; greedy pieces consume as much
as possible.  Backtracking is elided exactly where the committed alternative
and the skipped alternative begin with disjoint characters, so the committed
matcher accepts the same strings with the same captures.  `\s`, `\d` and `\w`
are modelled on the character repertoire that can actually occur here (ASCII
plus the accented Spanish letters appearing in the patterns). -/

def isPySpace (c : Char) : Bool :=
  c = ' ' || c = '\t' || c = '\n' || c = '\x0d' || c = '\x0b' || c = '\x0c'

def isWordChar (c : Char) : Bool :=
  c.isAlphanum || c = '_' ||
    c ∈ ['á', 'é', 'í', 'ó', 'ú', 'ñ', 'ü', 'Á', 'É', 'Í', 'Ó', 'Ú', 'Ñ', 'Ü']

/-- `str.lower()` restricted to ASCII plus the accented letters of the
patterns' alphabet. -/
def pyLower (c : Char) : Char :=
  if c = 'Á' then 'á' else if c = 'É' then 'é' else if c = 'Í' then 'í'
  else if c = 'Ó' then 'ó' else if c = 'Ú' then 'ú' else if c = 'Ñ' then 'ñ'
  else if c = 'Ü' then 'ü' else c.toLower

/-- `str.strip()` on the modelled whitespace set. -/
def pyStrip (cs : List Char) : List Char :=
  ((cs.dropWhile isPySpace).reverse.dropWhile isPySpace).reverse

/-- Consumes the literal `lit` from the head of `cs`. -/
def dropLit : List Char → List Char → Option (List Char)
  | [], cs => some cs
  | _ :: _, [] => none
  | l :: ls, c :: cs => if c = l then dropLit ls cs else none

/-- `\s+` (greedy, here always followed by a non-space requirement). -/
def spaces1 (cs : List Char) : Option (List Char) :=
  match cs with
  | c :: rest => if isPySpace c then some (rest.dropWhile isPySpace) else none
  | [] => none

def takeDigits : List Char → ℕ → ℕ × List Char
  | c :: cs, acc =>
    if c.isDigit then takeDigits cs (acc * 10 + (c.toNat - '0'.toNat)) else (acc, c :: cs)
  | [], acc => (acc, [])

/-- `(\d+)` (greedy, here always followed by a non-digit requirement),
returning the captured value as `int(...)` would. -/
def digits1 (cs : List Char) : Option (ℕ × List Char) :=
  match cs with
  | c :: _ => if c.isDigit then some (takeDigits cs 0) else none
  | [] => none

/-- Pattern `no\s+(?:he\s+)?entren(?:o|ado)\s+(?:en\s+)?(\d+)\s*([hd])?`
matched at the head of `cs`; returns (group 1 as an int, group 2). -/
def matchNoTrainingAt (cs : List Char) : Option (ℕ × Option Char) := do
  let cs ← dropLit ['n', 'o'] cs
  let cs ← spaces1 cs
  let cs := match dropLit ['h', 'e'] cs with
    | some cs2 =>
      match spaces1 cs2 with
      | some cs3 => cs3
      | none => cs
    | none => cs
  let cs ← dropLit ['e', 'n', 't', 'r', 'e', 'n'] cs
  let cs ← match dropLit ['o'] cs with
    | some cs2 => some cs2
    | none => dropLit ['a', 'd', 'o'] cs
  let cs ← spaces1 cs
  let cs := match dropLit ['e', 'n'] cs with
    | some cs2 =>
      match spaces1 cs2 with
      | some cs3 => cs3
      | none => cs
    | none => cs
  let (n, cs) ← digits1 cs
  match cs.dropWhile isPySpace with
  | c :: _ => if c = 'h' || c = 'd' then pure (n, some c) else pure (n, none)
  | [] => pure (n, none)

/-- `re.search` of the no-training pattern: leftmost start position wins. -/
def searchNoTraining (cs : List Char) : Option (ℕ × Option Char) :=
  match matchNoTrainingAt cs with
  | some r => some r
  | none =>
    match cs with
    | [] => none
    | _ :: rest => searchNoTraining rest

/-- Tail `(\d+)\s*d[ií]as?\s*(?:antes)?` of the deload pattern at the head of
`cs`; the trailing `s?\s*(?:antes)?` can never fail and affects no group. -/
def matchDiasTailAt (cs : List Char) : Option ℕ := do
  let (n, cs) ← digits1 cs
  let cs := cs.dropWhile isPySpace
  let cs ← dropLit ['d'] cs
  let cs ← match dropLit ['í'] cs with
    | some cs2 => some cs2
    | none => dropLit ['i'] cs
  let _ ← dropLit ['a'] cs
  pure n

/-- Lazy `.*?` before the días tail: the leftmost matching position wins, and
`.` does not match a newline. -/
def searchDiasTail (cs : List Char) : Option ℕ :=
  match matchDiasTailAt cs with
  | some r => some r
  | none =>
    match cs with
    | [] => none
    | c :: rest => if c = '\n' then none else searchDiasTail rest

/-- `\bdeload\b` followed by the lazy días tail; `prev` is the character just
before the current position (for the word boundary). -/
def deloadAt (prev : Option Char) (cs : List Char) : Option ℕ := do
  match prev with
  | some p => if isWordChar p then none else pure ()
  | none => pure ()
  let cs ← dropLit ['d', 'e', 'l', 'o', 'a', 'd'] cs
  match cs with
  | c :: _ => if isWordChar c then none else searchDiasTail cs
  | [] => searchDiasTail cs

/-- Greedy `.*` before `\bdeload\b…`: the rightmost matching split wins, and
`.` does not match a newline. -/
def starGreedyDeload (prev : Option Char) (cs : List Char) : Option ℕ :=
  match cs with
  | [] => deloadAt prev []
  | c :: rest =>
    if c = '\n' then deloadAt prev (c :: rest)
    else
      match starGreedyDeload (some c) rest with
      | some r => some r
      | none => deloadAt prev (c :: rest)

/-- Pattern `(?:av[íi]same|avisa|recuerda).*\bdeload\b.*?(\d+)\s*d[ií]as?\s*(?:antes)?`
matched at the head of `cs`, with full backtracking across the alternation. -/
def matchDeloadWarnAt (cs : List Char) : Option ℕ :=
  let alt1 : Option ℕ :=
    match dropLit ['a', 'v'] cs with
    | some (c :: rest) =>
      if c = 'í' || c = 'i' then
        match dropLit ['s', 'a', 'm', 'e'] rest with
        | some rest2 => starGreedyDeload (some 'e') rest2
        | none => none
      else none
    | _ => none
  match alt1 with
  | some r => some r
  | none =>
    match dropLit ['a', 'v', 'i', 's', 'a'] cs with
    | some rest =>
      match starGreedyDeload (some 'a') rest with
      | some r => some r
      | none =>
        match dropLit ['r', 'e', 'c', 'u', 'e', 'r', 'd', 'a'] cs with
        | some rest2 => starGreedyDeload (some 'a') rest2
        | none => none
    | none =>
      match dropLit ['r', 'e', 'c', 'u', 'e', 'r', 'd', 'a'] cs with
      | some rest2 => starGreedyDeload (some 'a') rest2
      | none => none

/-- `re.search` of the deload-warning pattern. -/
def searchDeloadWarn (cs : List Char) : Option ℕ :=
  match matchDeloadWarnAt cs with
  | some r => some r
  | none =>
    match cs with
    | [] => none
    | _ :: rest => searchDeloadWarn rest

/-- Pattern `(?:qu[eé]\s+)?toca\s+(?:hoy|mañana|pasado)?` matched at the head
of `cs`; the final optional group can never fail, so a match only requires
`toca` plus whitespace (the optional prefix never changes acceptance at a
given start position, since `t` ≠ `q`). -/
def matchNextSessionAt (cs : List Char) : Bool :=
  let afterPrefix :=
    match dropLit ['q', 'u'] cs with
    | some (c :: rest) =>
      if c = 'e' || c = 'é' then
        match spaces1 rest with
        | some rest2 => rest2
        | none => cs
      else cs
    | _ => cs
  match dropLit ['t', 'o', 'c', 'a'] afterPrefix with
  | some rest => (spaces1 rest).isSome
  | none => false

/-- `re.search` of the next-session pattern. -/
def searchNextSession (cs : List Char) : Bool :=
  matchNextSessionAt cs ||
    match cs with
    | [] => false
    | _ :: rest => searchNextSession rest

/-! ## Intent construction -/

inductive TriggerType where
  | TIME_BASED
  | CONDITIONAL
  | RECURRING
  | EVENT_BASED
deriving DecidableEq

inductive ActionType where
  | NOTIFY
  | ASK
  | REMIND
deriving DecidableEq

/-- Values stored in the string-keyed `trigger_data` / `action_data` dicts. -/
inductive PVal where
  | s (v : String)
  | i (v : ℤ)
deriving DecidableEq

structure ReminderIntent where
  raw_text : String
  trigger_type : TriggerType
  trigger_data : List (String × PVal)
  action_type : ActionType
  action_data : List (String × PVal)
  context_needed : List String
deriving DecidableEq

/-- The CONDITIONAL/no_training intent built by the first branch of `parse`. -/
def noTrainingIntent (text : String) (amount : ℕ) (unit : Char) : ReminderIntent :=
  let hours : ℕ := if unit = 'h' then amount else amount * 24
  { raw_text := text
    trigger_type := .CONDITIONAL
    trigger_data :=
      [("condition", .s "no_training"), ("hours", .i hours),
       ("check_interval", .i ((min (hours / 4) 6 : ℕ) : ℤ))]
    action_type := .REMIND
    action_data :=
      [("message", .s ("Llevas más de " ++ toString amount ++ String.singleton unit
        ++ " sin entrenar"))]
    context_needed := ["last_workout", "next_session", "current_cycle"] }

/-- The EVENT_BASED/deload intent built by the second branch of `parse`. -/
def deloadIntent (text : String) (days : ℕ) : ReminderIntent :=
  { raw_text := text
    trigger_type := .EVENT_BASED
    trigger_data := [("event", .s "deload"), ("days_before", .i days)]
    action_type := .REMIND
    action_data := [("message", .s ("Deload en " ++ toString days ++ " días"))]
    context_needed := ["cycle_position", "deload_date"] }

/-- The TIME_BASED/ASK intent built by the third branch of `parse`. -/
def nextSessionIntent (text : String) : ReminderIntent :=
  { raw_text := text
    trigger_type := .TIME_BASED
    trigger_data := [("when", .s "now")]
    action_type := .ASK
    action_data := [("query", .s "next_session")]
    context_needed := ["next_session", "current_cycle", "last_workout"] }

/-- The default TIME_BASED/NOTIFY intent of `parse`. -/
def defaultIntent (text : String) : ReminderIntent :=
  { raw_text := text
    trigger_type := .TIME_BASED
    trigger_data := [("when", .s "unspecified")]
    action_type := .NOTIFY
    action_data := [("message", .s text)]
    context_needed := [] }

/-- `ReminderIntent.parse` from parser.py. -/
def parse (text : String) : ReminderIntent :=
  let tl := pyStrip (text.data.map pyLower)
  match searchNoTraining tl with
  | some (amount, unitOpt) => noTrainingIntent text amount (unitOpt.getD 'h')
  | none =>
    match searchDeloadWarn tl with
    | some days => deloadIntent text days
    | none =>
      if searchNextSession tl then nextSessionIntent text
      else defaultIntent text

/-! ## Context builder (context.py)

`datetime` values are reduced to the two operations the code performs on them:
subtraction (field `ts`, rational seconds on a linear axis whose origin is the
`PROGRAM_START` midnight) and `strftime("%d/%m/%Y")` (field `dmy`, carried as
an opaque pre-rendered string). -/

structure PyDatetime where
  ts : ℚ
  dmy : String
deriving DecidableEq

/-- Timestamp of `datetime.fromisoformat(PROGRAM_START)`: the origin of the
modelled time axis. -/
def PROGRAM_START_TS : ℚ := 0

/-- `WorkoutEntry` from notion.py (the fields the core reads). -/
structure WorkoutEntry where
  ejercicio : String
  fecha : PyDatetime
  dia_bbb : String
  semana : ℤ
  peso_top : ℚ
  reps : String
  volumen : ℚ
  hevy_id : String
deriving DecidableEq

structure WorkoutContext where
  last_workout : Option WorkoutEntry
  hours_since_last : Option ℚ
  cycle_state : CycleState
  next_session : NextSession
  needs_deload : Bool
  missed_workout : Bool
deriving DecidableEq

/-- Property `WorkoutContext.is_deload_week`. -/
def is_deload_week (ctx : WorkoutContext) : Bool :=
  ctx.cycle_state.week_type == 4

/-- Property `WorkoutContext.days_until_deload`. -/
def days_until_deload (ctx : WorkoutContext) : ℤ :=
  if CycleState.week_in_macro ctx.cycle_state ≥ 7 then 0
  else 7 - CycleState.week_in_macro ctx.cycle_state

/-- `build_context` from context.py, with `datetime.now()` passed in as
`nowTs` and the optional last workout as an argument. -/
def build_context (nowTs : ℚ) (last_workout : Option WorkoutEntry) : WorkoutContext :=
  let hours_since : Option ℚ := last_workout.map fun lw => (nowTs - lw.fecha.ts) / 3600
  let days_since_start : ℤ := ⌊(nowTs - PROGRAM_START_TS) / 86400⌋
  let estimated_sessions : ℤ := days_since_start / 7 * 4
  let cycle := get_cycle_state estimated_sessions
  let next_day := estimated_sessions % 4 + 1
  { last_workout := last_workout
    hours_since_last := hours_since
    cycle_state := cycle
    next_session := get_next_session next_day cycle
    needs_deload := CycleState.week_in_macro cycle == 7
    missed_workout := match hours_since with | none => false | some h => decide (h > 48) }

/-- Python `f"{x:.0f}"` on a non-negative value: round half to even, print the
integer (the `-0` rendering of small negative values is not modelled; every
formatted value in this code is non-negative on the claims' inputs). -/
def formatF0 (q : ℚ) : String :=
  toString (roundHalfEven q)

/-- Python `"\n".join(lines)`. -/
def joinLines : List String → String
  | [] => ""
  | l :: ls => ls.foldl (fun acc x => acc ++ "\n" ++ x) l

def Reps.render : Reps → String
  | .num n => toString n
  | .txt s => s

/-- `format_context_message` from context.py.  The `hours_since_last`
interpolation is only reachable with `missed_workout` set, which
`build_context` only sets when the value is present; `getD 0` covers the
state unreachable from the code. -/
def format_context_message (ctx : WorkoutContext) : String :=
  match ctx.last_workout with
  | none => "🆕 No tengo registro de entrenamientos recientes. ¿Empezamos?"
  | some lw =>
    let header :=
      if ctx.missed_workout then
        "⚠️ Llevas " ++ formatF0 (ctx.hours_since_last.getD 0) ++ "h sin entrenar"
      else if is_deload_week ctx then
        "🧘 Semana de deload - recuperación activa"
      else
        "💪 " ++ ctx.cycle_state.week_name ++ " (Macro "
          ++ toString ctx.cycle_state.macro_num ++ ")"
    let rest :=
      ["\n📅 Último: " ++ lw.ejercicio, "   " ++ lw.fecha.dmy] ++
        (if lw.peso_top > 0 then ["   Top: " ++ formatF0 lw.peso_top ++ "kg"] else []) ++
        (if is_deload_week ctx then []
         else
          ["\n🎯 Próximo: " ++ ctx.next_session.day_name, "   " ++ ctx.next_session.focus] ++
            (if ctx.next_session.working_sets = [] then []
             else
              "   Sets:" ::
                ctx.next_session.working_sets.enum.map (fun p =>
                  "     " ++ toString (p.1 + 1) ++ ". " ++ formatF0 (p.2.weight : ℚ)
                    ++ "kg × " ++ Reps.render p.2.reps))) ++
        (if 0 < days_until_deload ctx ∧ days_until_deload ctx ≤ 3 then
          ["\n⏰ Deload en " ++ toString (days_until_deload ctx) ++ " días"]
         else [])
    joinLines (header :: rest)

/-! ## Scheduler (scheduler.py) -/

inductive JobStatus where
  | ACTIVE
  | PAUSED
  | TRIGGERED
  | COMPLETED
deriving DecidableEq

/-- `JobStatus.value` (the Python enum's value). -/
def JobStatus.value : JobStatus → String
  | .ACTIVE => "activo"
  | .PAUSED => "pausado"
  | .TRIGGERED => "disparado"
  | .COMPLETED => "completado"

/-- `JobStatus(value)` lookup. -/
def JobStatus.fromValue (s : String) : Option JobStatus :=
  if s = "activo" then some .ACTIVE
  else if s = "pausado" then some .PAUSED
  else if s = "disparado" then some .TRIGGERED
  else if s = "completado" then some .COMPLETED
  else none

/-- `TriggerType[...].name`. -/
def TriggerType.name : TriggerType → String
  | .TIME_BASED => "TIME_BASED"
  | .CONDITIONAL => "CONDITIONAL"
  | .RECURRING => "RECURRING"
  | .EVENT_BASED => "EVENT_BASED"

/-- `TriggerType[name]` lookup. -/
def TriggerType.fromName (s : String) : Option TriggerType :=
  if s = "TIME_BASED" then some .TIME_BASED
  else if s = "CONDITIONAL" then some .CONDITIONAL
  else if s = "RECURRING" then some .RECURRING
  else if s = "EVENT_BASED" then some .EVENT_BASED
  else none

/-- `ActionType[...].name`. -/
def ActionType.name : ActionType → String
  | .NOTIFY => "NOTIFY"
  | .ASK => "ASK"
  | .REMIND => "REMIND"

/-- `ActionType[name]` lookup. -/
def ActionType.fromName (s : String) : Option ActionType :=
  if s = "NOTIFY" then some .NOTIFY
  else if s = "ASK" then some .ASK
  else if s = "REMIND" then some .REMIND
  else none

structure ReminderJob where
  id : String
  user_id : String
  intent : ReminderIntent
  status : JobStatus
  created_at : String
  notion_page_id : Option String
  last_checked : Option String
  trigger_count : ℤ
deriving DecidableEq

/-- The flattened intent block of the serialized job. -/
structure IntentDict where
  raw_text : String
  trigger_type : String
  trigger_data : List (String × PVal)
  action_type : String
  action_data : List (String × PVal)
  context_needed : List String
deriving DecidableEq

/-- The serialized form of a job (`ReminderJob.to_dict`'s result). -/
structure JobDict where
  id : String
  user_id : String
  intent : IntentDict
  status : String
  created_at : String
  notion_page_id : Option String
  last_checked : Option String
  trigger_count : ℤ
deriving DecidableEq

/-- `ReminderJob.to_dict` from scheduler.py. -/
def ReminderJob.to_dict (j : ReminderJob) : JobDict :=
  { id := j.id
    user_id := j.user_id
    intent :=
      { raw_text := j.intent.raw_text
        trigger_type := j.intent.trigger_type.name
        trigger_data := j.intent.trigger_data
        action_type := j.intent.action_type.name
        action_data := j.intent.action_data
        context_needed := j.intent.context_needed }
    status := j.status.value
    created_at := j.created_at
    notion_page_id := j.notion_page_id
    last_checked := j.last_checked
    trigger_count := j.trigger_count }

/-- `ReminderJob.from_dict` from scheduler.py; the enum lookups
(`TriggerType[...]`, `ActionType[...]`, `JobStatus(...)`) raise on unknown
strings, modelled as `none`. -/
def ReminderJob.from_dict (d : JobDict) : Option ReminderJob := do
  let tt ← TriggerType.fromName d.intent.trigger_type
  let act ← ActionType.fromName d.intent.action_type
  let st ← JobStatus.fromValue d.status
  pure
    { id := d.id
      user_id := d.user_id
      intent :=
        { raw_text := d.intent.raw_text
          trigger_type := tt
          trigger_data := d.intent.trigger_data
          action_type := act
          action_data := d.intent.action_data
          context_needed := d.intent.context_needed }
      status := st
      created_at := d.created_at
      notion_page_id := d.notion_page_id
      last_checked := d.last_checked
      trigger_count := d.trigger_count }

/-- The local job file: a mapping from job id to serialized job, in insertion
order (`JobStore._load_all` / `_save_all`). -/
abbrev JobStoreState := List (String × JobDict)

/-- `JobStore.save`: `jobs[job.id] = job.to_dict()` on the whole mapping. -/
def storeSave (store : JobStoreState) (j : ReminderJob) : JobStoreState :=
  if store.any (fun kv => kv.1 = j.id) then
    store.map (fun kv => if kv.1 = j.id then (j.id, j.to_dict) else kv)
  else store ++ [(j.id, j.to_dict)]

/-- The dict returned by `Scheduler.check_job` on a trigger (`triggered` is
always `True` there, so it is represented by the surrounding `some`). -/
structure TriggerResult where
  reason : String
  context : WorkoutContext
  message : String
deriving DecidableEq

/-- Result of one `Scheduler.check_job` call: the mutated job, the local
store after the call, and the returned trigger dict (if any). -/
structure CheckOutcome where
  job : ReminderJob
  store : JobStoreState
  result : Option TriggerResult
deriving DecidableEq

/-- `trigger_data.get(k, dflt)` read as a number.  A present non-numeric value
would make the Python comparison raise; that state is unreachable for intents
produced by `parse` and is collapsed to the default here. -/
def tdInt (d : List (String × PVal)) (k : String) (dflt : ℤ) : ℤ :=
  match List.lookup k d with
  | some (.i v) => v
  | _ => dflt

/-- `Scheduler.check_job` from scheduler.py.  `nowIso` is
`datetime.now().isoformat()`, `nowTs` the same instant on the modelled time
axis, and `lastWorkout` the result of the `get_last_workout` attempt (`none`
both when the store is unconfigured and when the call failed). -/
def check_job (nowIso : String) (nowTs : ℚ) (lastWorkout : Option WorkoutEntry)
    (store : JobStoreState) (job : ReminderJob) : CheckOutcome :=
  let job := { job with last_checked := some nowIso }
  let fallthrough : CheckOutcome := ⟨job, storeSave store job, none⟩
  match job.intent.trigger_type with
  | .CONDITIONAL =>
    if List.lookup "condition" job.intent.trigger_data = some (.s "no_training") then
      let threshold := tdInt job.intent.trigger_data "hours" 48
      let ctx := build_context nowTs lastWorkout
      match ctx.hours_since_last with
      | none => ⟨job, store, none⟩
      | some h =>
        if h > (threshold : ℚ) then
          let job := { job with trigger_count := job.trigger_count + 1 }
          ⟨job, storeSave store job,
            some ⟨"No training for " ++ formatF0 h ++ "h", ctx, format_context_message ctx⟩⟩
        else fallthrough
    else fallthrough
  | .EVENT_BASED =>
    if List.lookup "event" job.intent.trigger_data = some (.s "deload") then
      let days_before := tdInt job.intent.trigger_data "days_before" 3
      let ctx := build_context nowTs none
      if days_until_deload ctx ≤ days_before then
        ⟨job, store,
          some ⟨"Deload in " ++ toString (days_until_deload ctx) ++ " days", ctx,
            format_context_message ctx⟩⟩
      else fallthrough
    else fallthrough
  | _ => fallthrough

/-- C10: the estimated session count `(days_since_start // 7) * 4` used by
`build_context` is always a multiple of 4, so the rotating day index
`estimated_sessions % 4 + 1` equals 1 for every current date, and the built
`next_session` is always the Day 1 (OHP) session. -/
def sampleWorkout : WorkoutEntry :=
  ⟨"Press Banca", ⟨0, "20/02/2026"⟩, "Día 3", 1, 60, "5", 300, "w1"⟩

/-- Sample CONDITIONAL/no_training job with threshold 48. -/
def sampleJob48 : ReminderJob :=
  ⟨"j48", "u1",
    ⟨"si no entreno en 48h", .CONDITIONAL,
      [("condition", .s "no_training"), ("hours", .i 48), ("check_interval", .i 6)],
      .REMIND, [], ["last_workout"]⟩,
    .ACTIVE, "2026-02-20T00:00:00", none, none, 0⟩

/-- Sample CONDITIONAL/no_training job with threshold 24. -/
def sampleJob24 : ReminderJob :=
  ⟨"j24", "u1",
    ⟨"si no entreno en 24h", .CONDITIONAL,
      [("condition", .s "no_training"), ("hours", .i 24), ("check_interval", .i 6)],
      .REMIND, [], ["last_workout"]⟩,
    .ACTIVE, "2026-02-20T00:00:00", none, none, 0⟩

/-- Sample EVENT_BASED/deload job with days_before 3. -/
def sampleJobDeload : ReminderJob :=
  ⟨"jd", "u1",
    ⟨"avísame del deload 3 días antes", .EVENT_BASED,
      [("event", .s "deload"), ("days_before", .i 3)],
      .REMIND, [], []⟩,
    .ACTIVE, "2026-02-20T00:00:00", none, none, 0⟩


/-! ## Lemmas about the cycle engine -/

theorem tmBumpsLoop_inner (N w : ℤ) :
    ∀ (j : ℕ) (acc : ℤ), (j : ℤ) ≤ N - 1 →
      (List.range j).foldl
        (fun (acc : ℤ) (m : ℕ) =>
          if (m : ℤ) < N - 1 then acc + 2
          else acc + (if 3 < w then 1 else 0) + (if 6 < w then 1 else 0))
        acc = acc + 2 * j := by
  intro j
  induction j with
  | zero => intro acc _; simp
  | succ k ih =>
    intro acc h
    rw [List.range_succ, List.foldl_append]
    have hk : (k : ℤ) ≤ N - 1 := by
      have : (k : ℤ) < (k + 1 : ℕ) := by exact_mod_cast Nat.lt_succ_self k
      omega
    rw [ih acc hk]
    have hklt : (k : ℤ) < N - 1 := by
      have : (k : ℤ) < (k + 1 : ℕ) := by exact_mod_cast Nat.lt_succ_self k
      omega
    simp only [List.foldl_cons, List.foldl_nil, if_pos hklt]
    push_cast
    ring

theorem tmBumpsLoop_closed (mn w : ℤ) (h : 1 ≤ mn) :
    tmBumpsLoop mn w =
      2 * (mn - 1) + (if 3 < w then 1 else 0) + (if 6 < w then 1 else 0) := by
  unfold tmBumpsLoop
  obtain ⟨k, hk⟩ : ∃ k, mn.toNat = k + 1 := by
    refine ⟨mn.toNat - 1, ?_⟩
    omega
  have hkz : (k : ℤ) = mn - 1 := by omega
  rw [hk, List.range_succ, List.foldl_append]
  rw [tmBumpsLoop_inner mn w k 0 (le_of_eq hkz)]
  have hnot : ¬ ((k : ℤ) < mn - 1) := by omega
  simp only [List.foldl_cons, List.foldl_nil, if_neg hnot]
  omega

theorem get_cycle_state_bumps (n : ℤ) (h : 0 ≤ n) :
    (get_cycle_state n).tm_bumps_completed =
      2 * (n / 4 / 7) + (if 3 < n / 4 % 7 + 1 then 1 else 0)
        + (if 6 < n / 4 % 7 + 1 then 1 else 0) := by
  show tmBumpsLoop (n / 4 / MACRO_CYCLE_LENGTH + 1) (n / 4 % MACRO_CYCLE_LENGTH + 1) = _
  rw [tmBumpsLoop_closed]
  · simp [MACRO_CYCLE_LENGTH]
  · have h4 : 0 ≤ n / 4 := Int.ediv_nonneg h (by norm_num)
    have h7 : 0 ≤ n / 4 / MACRO_CYCLE_LENGTH :=
      Int.ediv_nonneg h4 (by norm_num [MACRO_CYCLE_LENGTH])
    omega

/-- C4: for every non-negative integer `n`, `get_cycle_state n` has
`week_in_macro` in `[1,7]` and `week_type` in `[1,4]`, and `week_type` is
determined from `week_in_macro` by: 1–3 maps to itself, 4–6 maps to the value
minus 3, and 7 maps to 4. -/
theorem C4_cycle_state_ranges (n : ℤ) (h : 0 ≤ n) :
    1 ≤ CycleState.week_in_macro (get_cycle_state n) ∧ CycleState.week_in_macro (get_cycle_state n) ≤ 7 ∧
    1 ≤ (get_cycle_state n).week_type ∧ (get_cycle_state n).week_type ≤ 4 ∧
    ( CycleState.week_in_macro (get_cycle_state n) ≤ 3 →
      (get_cycle_state n).week_type = CycleState.week_in_macro (get_cycle_state n)) ∧
    (4 ≤ CycleState.week_in_macro (get_cycle_state n) → CycleState.week_in_macro (get_cycle_state n) ≤ 6 →
      (get_cycle_state n).week_type = CycleState.week_in_macro (get_cycle_state n) - 3) ∧
    ( CycleState.week_in_macro (get_cycle_state n) = 7 → (get_cycle_state n).week_type = 4) := by
  clear h
  simp only [get_cycle_state, MACRO_CYCLE_LENGTH]
  have h1 : 0 ≤ n / 4 % 7 := Int.emod_nonneg _ (by norm_num)
  have h2 : n / 4 % 7 < 7 := Int.emod_lt_of_pos _ (by norm_num)
  split_ifs <;> omega

theorem C4_cycle_state_ranges_witness :
    1 ≤ CycleState.week_in_macro (get_cycle_state 5) ∧ CycleState.week_in_macro (get_cycle_state 5) ≤ 7 ∧
    1 ≤ (get_cycle_state 5).week_type ∧ (get_cycle_state 5).week_type ≤ 4 ∧
    ( CycleState.week_in_macro (get_cycle_state 5) ≤ 3 →
      (get_cycle_state 5).week_type = CycleState.week_in_macro (get_cycle_state 5)) ∧
    (4 ≤ CycleState.week_in_macro (get_cycle_state 5) → CycleState.week_in_macro (get_cycle_state 5) ≤ 6 →
      (get_cycle_state 5).week_type = CycleState.week_in_macro (get_cycle_state 5) - 3) ∧
    ( CycleState.week_in_macro (get_cycle_state 5) = 7 → (get_cycle_state 5).week_type = 4) :=
  C4_cycle_state_ranges 5 (by norm_num)

/-- C5: `tm_bumps_completed` is monotonically non-decreasing in the session
count, and equals 2 bumps per fully completed macro-cycle (`macro_num - 1`)
plus 1 if `week_in_macro > 3` plus 1 more if `week_in_macro > 6`. -/
theorem C5_tm_bumps_monotone (n m : ℤ) (hn : 0 ≤ n) (hnm : n ≤ m) :
    (get_cycle_state n).tm_bumps_completed ≤ (get_cycle_state m).tm_bumps_completed ∧
    (get_cycle_state n).tm_bumps_completed =
      2 * ((get_cycle_state n).macro_num - 1)
        + (if 3 < CycleState.week_in_macro (get_cycle_state n) then 1 else 0)
        + (if 6 < CycleState.week_in_macro (get_cycle_state n) then 1 else 0) := by
  have hm : 0 ≤ m := le_trans hn hnm
  have bn := get_cycle_state_bumps n hn
  have bm := get_cycle_state_bumps m hm
  constructor
  · rw [bn, bm]
    have han : 0 ≤ n / 4 % 7 := Int.emod_nonneg _ (by norm_num)
    have ham : 0 ≤ m / 4 % 7 := Int.emod_nonneg _ (by norm_num)
    split_ifs <;> omega
  · rw [bn]
    have hmac : (get_cycle_state n).macro_num = n / 4 / 7 + 1 := by
      simp [get_cycle_state, MACRO_CYCLE_LENGTH]
    have hwim : CycleState.week_in_macro (get_cycle_state n) = n / 4 % 7 + 1 := by
      simp [get_cycle_state, MACRO_CYCLE_LENGTH]
    rw [hmac, hwim]
    split_ifs <;> omega

theorem C5_tm_bumps_monotone_witness :
    (get_cycle_state 5).tm_bumps_completed ≤ (get_cycle_state 100).tm_bumps_completed ∧
    (get_cycle_state 5).tm_bumps_completed =
      2 * ((get_cycle_state 5).macro_num - 1)
        + (if 3 < CycleState.week_in_macro (get_cycle_state 5) then 1 else 0)
        + (if 6 < CycleState.week_in_macro (get_cycle_state 5) then 1 else 0) :=
  C5_tm_bumps_monotone 5 100 (by norm_num) (by norm_num)

/-! ## Plate rounding lemmas -/

theorem int_dist_lower (q : ℚ) (z : ℤ) :
    min (q - ⌊q⌋) ((⌊q⌋ : ℚ) + 1 - q) ≤ |q - z| := by
  have h1 := le_abs_self (q - (z : ℚ))
  have h2 := neg_abs_le (q - (z : ℚ))
  rcases le_or_lt z ⌊q⌋ with h | h
  · have hz : (z : ℚ) ≤ ⌊q⌋ := by exact_mod_cast h
    have := min_le_left (q - (⌊q⌋ : ℚ)) ((⌊q⌋ : ℚ) + 1 - q)
    linarith
  · have hz : (⌊q⌋ : ℚ) + 1 ≤ z := by exact_mod_cast h
    have := min_le_right (q - (⌊q⌋ : ℚ)) ((⌊q⌋ : ℚ) + 1 - q)
    linarith

theorem roundHalfEven_dist (q : ℚ) :
    |q - roundHalfEven q| = min (q - ⌊q⌋) ((⌊q⌋ : ℚ) + 1 - q) := by
  have h1 : (⌊q⌋ : ℚ) ≤ q := Int.floor_le q
  have h2 : q < ⌊q⌋ + 1 := Int.lt_floor_add_one q
  unfold roundHalfEven
  split_ifs with ha hb hc
  · rw [abs_of_nonneg (by linarith), min_eq_left (by linarith)]
  · push_cast
    rw [abs_of_nonpos (by linarith), min_eq_right (by linarith)]
    ring
  · rw [abs_of_nonneg (by linarith), min_eq_left (by linarith)]
  · push_cast
    rw [abs_of_nonpos (by linarith), min_eq_right (by linarith)]
    ring

theorem roundHalfEven_le_half (q : ℚ) : |q - roundHalfEven q| ≤ 1 / 2 := by
  rw [roundHalfEven_dist]
  have h1 : (⌊q⌋ : ℚ) ≤ q := Int.floor_le q
  have h2 : q < ⌊q⌋ + 1 := Int.lt_floor_add_one q
  rcases le_total (q - ⌊q⌋) (1 / 2) with h | h
  · exact le_trans (min_le_left _ _) h
  · exact le_trans (min_le_right _ _) (by linarith)

theorem roundHalfEven_nearest (q : ℚ) (z : ℤ) :
    |q - roundHalfEven q| ≤ |q - z| := by
  rw [roundHalfEven_dist]
  exact int_dist_lower q z

theorem roundHalfEven_tie_even (q : ℚ) (h : |q - roundHalfEven q| = 1 / 2) :
    2 ∣ roundHalfEven q := by
  have h1 : (⌊q⌋ : ℚ) ≤ q := Int.floor_le q
  have h2 : q < ⌊q⌋ + 1 := Int.lt_floor_add_one q
  unfold roundHalfEven at h ⊢
  split_ifs at h ⊢ with ha hb hc
  · rw [abs_of_nonneg (by linarith)] at h
    linarith
  · push_cast at h
    rw [abs_of_nonpos (by linarith)] at h
    linarith
  · exact Int.dvd_of_emod_eq_zero hc
  · omega

theorem round_to_plate_even (w : ℚ) : 2 ∣ round_to_plate w :=
  ⟨roundHalfEven (w / 2), by rw [round_to_plate]; ring⟩

theorem round_to_plate_factor (w : ℚ) :
    w - (round_to_plate w : ℚ) = 2 * (w / 2 - roundHalfEven (w / 2)) := by
  rw [round_to_plate]
  push_cast
  ring

theorem round_to_plate_dist (w : ℚ) : |w - round_to_plate w| ≤ 1 := by
  rw [round_to_plate_factor, abs_mul, abs_two]
  have := roundHalfEven_le_half (w / 2)
  linarith

theorem round_to_plate_nearest (w : ℚ) (t : ℤ) (ht : 2 ∣ t) :
    |w - round_to_plate w| ≤ |w - t| := by
  obtain ⟨u, rfl⟩ := ht
  rw [round_to_plate_factor]
  have key : w - ((2 * u : ℤ) : ℚ) = 2 * (w / 2 - u) := by push_cast; ring
  rw [key, abs_mul, abs_mul, abs_two]
  have := roundHalfEven_nearest (w / 2) u
  linarith

theorem round_to_plate_tie (w : ℚ) (h : |w - round_to_plate w| = 1) :
    4 ∣ round_to_plate w := by
  rw [round_to_plate_factor, abs_mul, abs_two] at h
  have htie : |w / 2 - roundHalfEven (w / 2)| = 1 / 2 := by linarith
  obtain ⟨u, hu⟩ := roundHalfEven_tie_even (w / 2) htie
  exact ⟨u, by rw [round_to_plate, hu]; ring⟩

theorem int_log2_eq (r : ℚ) (e : ℤ) (h0 : 0 < r)
    (h1 : (2 : ℚ) ^ e ≤ r) (h2 : r < (2 : ℚ) ^ (e + 1)) : Int.log 2 r = e := by
  have ha : e ≤ Int.log 2 r := by
    rw [← Int.zpow_le_iff_le_log (by norm_num) h0]
    exact_mod_cast h1
  have hc : Int.log 2 r < e + 1 := by
    rw [← Int.lt_zpow_iff_log_lt (by norm_num) h0]
    exact_mod_cast h2
  omega

theorem roundB64_eval (q : ℚ) (e : ℤ) (h0 : 0 < q)
    (h1 : (2 : ℚ) ^ e ≤ q) (h2 : q < (2 : ℚ) ^ (e + 1)) :
    roundB64 q = roundHalfEven (q / (2 : ℚ) ^ (e - 52)) * (2 : ℚ) ^ (e - 52) := by
  unfold roundB64
  rw [if_neg (ne_of_gt h0), abs_of_pos h0, int_log2_eq q e h0 h1 h2]

theorem roundB64_d065 : roundB64 ((65 : ℚ) / 100) = 5854679515581645 / 9007199254740992 := by
  rw [roundB64_eval ((65 : ℚ) / 100) (-1) (by norm_num) (by norm_num) (by norm_num)]
  have hm : ((65 : ℚ) / 100) / (2 : ℚ) ^ ((-1 : ℤ) - 52) = 29273397577908224 / 5 := by norm_num
  rw [hm]
  have hf : Int.fract ((29273397577908224 : ℚ) / 5) = 4 / 5 := by unfold Int.fract; norm_num
  norm_num [roundHalfEven, hf]

theorem roundB64_d075 : roundB64 ((75 : ℚ) / 100) = 3 / 4 := by
  rw [roundB64_eval ((75 : ℚ) / 100) (-1) (by norm_num) (by norm_num) (by norm_num)]
  have hm : ((75 : ℚ) / 100) / (2 : ℚ) ^ ((-1 : ℤ) - 52) = 6755399441055744 := by norm_num
  rw [hm]
  have hf : Int.fract ((6755399441055744 : ℚ)) = 0 := by unfold Int.fract; norm_num
  norm_num [roundHalfEven, hf]

theorem roundB64_d085 : roundB64 ((85 : ℚ) / 100) = 7656119366529843 / 9007199254740992 := by
  rw [roundB64_eval ((85 : ℚ) / 100) (-1) (by norm_num) (by norm_num) (by norm_num)]
  have hm : ((85 : ℚ) / 100) / (2 : ℚ) ^ ((-1 : ℤ) - 52) = 38280596832649216 / 5 := by norm_num
  rw [hm]
  have hf : Int.fract ((38280596832649216 : ℚ) / 5) = 1 / 5 := by unfold Int.fract; norm_num
  norm_num [roundHalfEven, hf]

theorem roundB64_d070 : roundB64 ((70 : ℚ) / 100) = 3152519739159347 / 4503599627370496 := by
  rw [roundB64_eval ((70 : ℚ) / 100) (-1) (by norm_num) (by norm_num) (by norm_num)]
  have hm : ((70 : ℚ) / 100) / (2 : ℚ) ^ ((-1 : ℤ) - 52) = 31525197391593472 / 5 := by norm_num
  rw [hm]
  have hf : Int.fract ((31525197391593472 : ℚ) / 5) = 2 / 5 := by unfold Int.fract; norm_num
  norm_num [roundHalfEven, hf]

theorem roundB64_58 : roundB64 (58 : ℚ) = 58 := by
  rw [roundB64_eval (58 : ℚ) 5 (by norm_num) (by norm_num) (by norm_num)]
  have hm : (58 : ℚ) / (2 : ℚ) ^ ((5 : ℤ) - 52) = 8162774324609024 := by norm_num
  rw [hm]
  have hf : Int.fract ((8162774324609024 : ℚ)) = 0 := by unfold Int.fract; norm_num
  norm_num [roundHalfEven, hf]

theorem roundB64_90 : roundB64 (90 : ℚ) = 90 := by
  rw [roundB64_eval (90 : ℚ) 6 (by norm_num) (by norm_num) (by norm_num)]
  have hm : (90 : ℚ) / (2 : ℚ) ^ ((6 : ℤ) - 52) = 6333186975989760 := by norm_num
  rw [hm]
  have hf : Int.fract ((6333186975989760 : ℚ)) = 0 := by unfold Int.fract; norm_num
  norm_num [roundHalfEven, hf]

theorem roundB64_prod65 :
    roundB64 ((169785705951867705 : ℚ) / 4503599627370496) =
      2652901655497933 / 70368744177664 := by
  rw [roundB64_eval _ 5 (by norm_num) (by norm_num) (by norm_num)]
  have hm : ((169785705951867705 : ℚ) / 4503599627370496) / (2 : ℚ) ^ ((5 : ℤ) - 52) =
      169785705951867705 / 32 := by norm_num
  rw [hm]
  have hf : Int.fract ((169785705951867705 : ℚ) / 32) = 25 / 32 := by
    unfold Int.fract; norm_num
  norm_num [roundHalfEven, hf]

theorem roundB64_prod75 : roundB64 ((87 : ℚ) / 2) = 87 / 2 := by
  rw [roundB64_eval _ 5 (by norm_num) (by norm_num) (by norm_num)]
  have hm : ((87 : ℚ) / 2) / (2 : ℚ) ^ ((5 : ℤ) - 52) = 6122080743456768 := by norm_num
  rw [hm]
  have hf : Int.fract ((6122080743456768 : ℚ)) = 0 := by unfold Int.fract; norm_num
  norm_num [roundHalfEven, hf]

theorem roundB64_prod85 :
    roundB64 ((222027461629365447 : ℚ) / 4503599627370496) =
      3469179087958835 / 70368744177664 := by
  rw [roundB64_eval _ 5 (by norm_num) (by norm_num) (by norm_num)]
  have hm : ((222027461629365447 : ℚ) / 4503599627370496) / (2 : ℚ) ^ ((5 : ℤ) - 52) =
      222027461629365447 / 32 := by norm_num
  rw [hm]
  have hf : Int.fract ((222027461629365447 : ℚ) / 32) = 7 / 32 := by
    unfold Int.fract; norm_num
  norm_num [roundHalfEven, hf]

theorem roundB64_prod70 :
    roundB64 ((141863388262170615 : ℚ) / 2251799813685248) =
      8866461766385663 / 140737488355328 := by
  rw [roundB64_eval _ 5 (by norm_num) (by norm_num) (by norm_num)]
  have hm : ((141863388262170615 : ℚ) / 2251799813685248) / (2 : ℚ) ^ ((5 : ℤ) - 52) =
      141863388262170615 / 16 := by norm_num
  rw [hm]
  have hf : Int.fract ((141863388262170615 : ℚ) / 16) = 7 / 16 := by
    unfold Int.fract; norm_num
  norm_num [roundHalfEven, hf]

theorem plate_38 : round_to_plate ((2652901655497933 : ℚ) / 70368744177664) = 38 := by
  have hm : ((2652901655497933 : ℚ) / 70368744177664) / 2 =
      2652901655497933 / 140737488355328 := by norm_num
  have hf : Int.fract ((2652901655497933 : ℚ) / 140737488355328) =
      119626865102029 / 140737488355328 := by unfold Int.fract; norm_num
  norm_num [round_to_plate, roundHalfEven, hm, hf]

theorem plate_44 : round_to_plate ((87 : ℚ) / 2) = 44 := by
  have hf : Int.fract ((87 : ℚ) / 4) = 3 / 4 := by unfold Int.fract; norm_num
  norm_num [round_to_plate, roundHalfEven, hf]

theorem plate_50 : round_to_plate ((3469179087958835 : ℚ) / 70368744177664) = 50 := by
  have hm : ((3469179087958835 : ℚ) / 70368744177664) / 2 =
      3469179087958835 / 140737488355328 := by norm_num
  have hf : Int.fract ((3469179087958835 : ℚ) / 140737488355328) =
      91479367430963 / 140737488355328 := by unfold Int.fract; norm_num
  norm_num [round_to_plate, roundHalfEven, hm, hf]

theorem plate_62 : round_to_plate ((8866461766385663 : ℚ) / 140737488355328) = 62 := by
  have hm : ((8866461766385663 : ℚ) / 140737488355328) / 2 =
      8866461766385663 / 281474976710656 := by norm_num
  have hf : Int.fract ((8866461766385663 : ℚ) / 281474976710656) =
      140737488355327 / 281474976710656 := by unfold Int.fract; norm_num
  norm_num [round_to_plate, roundHalfEven, hm, hf]

theorem plate_64 : round_to_plate (63 : ℚ) = 64 := by
  have hf : Int.fract ((63 : ℚ) / 2) = 1 / 2 := by unfold Int.fract; norm_num
  norm_num [round_to_plate, roundHalfEven, hf]

/-- C6 (amended): every load returned by the weight computation is a multiple
of 2, and the rounding applied is round-half-to-even at 2-unit granularity of
the binary64 product `float(tm) * float(pct)` that the program computes — not
of the exact real product `tm * pct`: each load equals the plate rounding of
that float product, lies within 1 of it, is at least as close to it as any
other multiple of 2, and a tie of the float product lands on a multiple of 4
(an exact-real tie need not, e.g. `tm = 90` with pct `0.70`). -/
theorem C6_expected_weights_rounding (lift : String) (week tm_bumps : ℤ)
    (ws : List WeightSpec) (s : WeightSpec)
    (hws : get_expected_weights_float lift week tm_bumps = some ws) (hmem : s ∈ ws) :
    (2 ∣ s.weight) ∧
    s.weight = round_to_plate (roundB64 (roundB64 (get_effective_tm lift tm_bumps) * s.pct)) ∧
    |roundB64 (roundB64 (get_effective_tm lift tm_bumps) * s.pct) - s.weight| ≤ 1 ∧
    (∀ t : ℤ, 2 ∣ t →
      |roundB64 (roundB64 (get_effective_tm lift tm_bumps) * s.pct) - s.weight| ≤
        |roundB64 (roundB64 (get_effective_tm lift tm_bumps) * s.pct) - t|) ∧
    (|roundB64 (roundB64 (get_effective_tm lift tm_bumps) * s.pct) - s.weight| = 1 →
      4 ∣ s.weight) := by
  simp only [get_expected_weights_float] at hws
  split_ifs at hws
  rcases hcw : CYCLE_WEEKS_F week with _ | wc <;> rw [hcw] at hws
  · exact absurd hws (by simp)
  · rw [Option.some.injEq] at hws
    subst hws
    rw [List.mem_map] at hmem
    obtain ⟨a, _, rfl⟩ := hmem
    refine ⟨round_to_plate_even _, rfl, round_to_plate_dist _, ?_, round_to_plate_tie _⟩
    intro t ht
    exact round_to_plate_nearest _ t ht

theorem C6_expected_weights_rounding_witness :
    (2 ∣ (38 : ℤ)) ∧
    (38 : ℤ) =
      round_to_plate (roundB64 (roundB64 (get_effective_tm "ohp" 0) * roundB64 (65 / 100))) ∧
    |roundB64 (roundB64 (get_effective_tm "ohp" 0) * roundB64 (65 / 100)) - ((38 : ℤ) : ℚ)| ≤
      1 ∧
    (∀ t : ℤ, 2 ∣ t →
      |roundB64 (roundB64 (get_effective_tm "ohp" 0) * roundB64 (65 / 100)) - ((38 : ℤ) : ℚ)| ≤
        |roundB64 (roundB64 (get_effective_tm "ohp" 0) * roundB64 (65 / 100)) - t|) ∧
    (|roundB64 (roundB64 (get_effective_tm "ohp" 0) * roundB64 (65 / 100)) - ((38 : ℤ) : ℚ)| =
        1 → 4 ∣ (38 : ℤ)) :=
  C6_expected_weights_rounding "ohp" 1 0
    [⟨38, .num 5, roundB64 (65 / 100)⟩, ⟨44, .num 5, roundB64 (75 / 100)⟩,
     ⟨50, .txt "5+", roundB64 (85 / 100)⟩]
    ⟨38, .num 5, roundB64 (65 / 100)⟩
    (by
      have hne : get_effective_tm "ohp" 0 ≠ 0 := by
        simp only [get_effective_tm, TRAINING_MAX, TM_INCREMENT, String.reduceEq]
        norm_num
      have htm : get_effective_tm "ohp" 0 = 58 := by
        simp only [get_effective_tm, TRAINING_MAX, TM_INCREMENT, String.reduceEq]
        norm_num
      simp only [get_expected_weights_float, CYCLE_WEEKS_F, if_neg hne, htm, roundB64_58,
        roundB64_d065, roundB64_d075, roundB64_d085]
      norm_num [roundB64_prod65, roundB64_prod75, roundB64_prod85, plate_38, plate_44,
        plate_50])
    (by simp)

/-- C6 counterexample: at bench in week 2 with 7 TM bumps (`tm = 90`) the
exact product `90 * 0.70` is the tie 63, whose round-half-to-even plate value
is 64; but the program's binary64 product is just below 63 and the returned
load is 62 — at distance 1 from the exact product yet not a multiple of 4, so
the rounding the program applies is not round-half-to-even at 2-unit
granularity of the exact `tm * pct`. -/
theorem C6_exact_tie_counterexample :
    get_effective_tm "bench" 7 * (70 / 100) = 63 ∧
    round_to_plate (63 : ℚ) = 64 ∧
    (((get_expected_weights_float "bench" 2 7).getD []).map WeightSpec.weight).head? =
      some 62 ∧
    |(63 : ℚ) - ((62 : ℤ) : ℚ)| = 1 ∧
    ¬ (4 ∣ (62 : ℤ)) := by
  refine ⟨?_, plate_64, ?_, by norm_num, by decide⟩
  · simp only [get_effective_tm, TRAINING_MAX, TM_INCREMENT, String.reduceEq]
    norm_num
  · have hne : get_effective_tm "bench" 7 ≠ 0 := by
      simp only [get_effective_tm, TRAINING_MAX, TM_INCREMENT, String.reduceEq]
      norm_num
    have htm : get_effective_tm "bench" 7 = 90 := by
      simp only [get_effective_tm, TRAINING_MAX, TM_INCREMENT, String.reduceEq]
      norm_num
    simp only [get_expected_weights_float, CYCLE_WEEKS_F, if_neg hne, htm, roundB64_90,
      roundB64_d070]
    norm_num [roundB64_prod70, plate_62]

example : parse "avísame si no he entrenado en 48h" =
    noTrainingIntent "avísame si no he entrenado en 48h" 48 'h' := by decide

example : parse "si no entreno en 2d" = noTrainingIntent "si no entreno en 2d" 2 'd' := by
  decide

example : parse "avísame del deload 3 días antes" =
    deloadIntent "avísame del deload 3 días antes" 3 := by decide

example : parse "qué toca hoy" = nextSessionIntent "qué toca hoy" := by decide

example : parse "hola" = defaultIntent "hola" := by decide

/-- C1: parsing "avísame si no he entrenado en 48h" yields a CONDITIONAL intent
with trigger_data condition="no_training", hours=48, check_interval=6; parsing
"si no entreno en 2d" yields hours=48; in general a captured quantity with unit
'd' is multiplied by 24 and check_interval is min(hours // 4, 6). -/
theorem C1_parse_no_training :
    (parse "avísame si no he entrenado en 48h").trigger_type = TriggerType.CONDITIONAL ∧
    (parse "avísame si no he entrenado en 48h").trigger_data =
      [("condition", PVal.s "no_training"), ("hours", PVal.i 48),
       ("check_interval", PVal.i 6)] ∧
    List.lookup "hours" (parse "si no entreno en 2d").trigger_data = some (PVal.i 48) ∧
    (∀ (t : String) (a : ℕ),
      List.lookup "hours" (noTrainingIntent t a 'd').trigger_data =
        some (PVal.i ((a * 24 : ℕ) : ℤ)) ∧
      List.lookup "check_interval" (noTrainingIntent t a 'd').trigger_data =
        some (PVal.i ((min (a * 24 / 4) 6 : ℕ) : ℤ))) := by
  refine ⟨by decide, by decide, by decide, ?_⟩
  intro t a
  constructor <;> rfl

/-- C9: `parse` is a total function by construction; when none of the three
searched classification patterns matches the lowered, stripped input, it
returns the default TIME_BASED/NOTIFY intent carrying the literal input text
as the action message and an empty context_needed list. -/
theorem C9_parse_default (text : String)
    (h1 : searchNoTraining (pyStrip (text.data.map pyLower)) = none)
    (h2 : searchDeloadWarn (pyStrip (text.data.map pyLower)) = none)
    (h3 : searchNextSession (pyStrip (text.data.map pyLower)) = false) :
    parse text = defaultIntent text ∧
    (parse text).trigger_type = TriggerType.TIME_BASED ∧
    (parse text).action_type = ActionType.NOTIFY ∧
    (parse text).action_data = [("message", PVal.s text)] ∧
    (parse text).context_needed = [] := by
  have hp : parse text = defaultIntent text := by
    simp only [parse, h1, h2, h3]
    simp
  exact ⟨hp, by rw [hp]; rfl, by rw [hp]; rfl, by rw [hp]; rfl, by rw [hp]; rfl⟩

theorem C9_parse_default_witness :
    parse "hola" = defaultIntent "hola" ∧
    (parse "hola").trigger_type = TriggerType.TIME_BASED ∧
    (parse "hola").action_type = ActionType.NOTIFY ∧
    (parse "hola").action_data = [("message", PVal.s "hola")] ∧
    (parse "hola").context_needed = [] :=
  C9_parse_default "hola" (by decide) (by decide) (by decide)

theorem C10_day_rotation_constant (nowTs : ℚ) (lw : Option WorkoutEntry) :
    (⌊(nowTs - PROGRAM_START_TS) / 86400⌋ / 7 * 4) % 4 + 1 = 1 ∧
    (build_context nowTs lw).next_session.day_name = "Día 1 - OHP" ∧
    (build_context nowTs lw).next_session.main_lift = "ohp" := by
  have hmod : ∀ d : ℤ, (d / 7 * 4) % 4 + 1 = 1 := by intro d; omega
  refine ⟨hmod _, ?_, ?_⟩ <;>
  · simp only [build_context]
    rw [hmod]
    rfl

/-- C7: serializing a `ReminderJob` with `to_dict` and deserializing the
result with `from_dict` yields the original job, all fields included. -/
theorem C7_job_roundtrip (j : ReminderJob) :
    ReminderJob.from_dict (ReminderJob.to_dict j) = some j := by
  obtain ⟨jid, uid, ⟨raw, tt, td, act, ad, cn⟩, st, ca, np, lc, tc⟩ := j
  cases tt <;> cases act <;> cases st <;> rfl

/-! ## Message non-emptiness -/

theorem foldl_join_length (t : List String) :
    ∀ acc : String, acc.length ≤ (t.foldl (fun a x => a ++ "\n" ++ x) acc).length := by
  induction t with
  | nil => intro acc; simp
  | cons x xs ih =>
    intro acc
    simp only [List.foldl_cons]
    refine le_trans ?_ (ih (acc ++ "\n" ++ x))
    rw [String.length_append, String.length_append]
    omega

theorem joinLines_cons_ne_empty (h : String) (t : List String) (hh : 0 < h.length) :
    joinLines (h :: t) ≠ "" := by
  intro hc
  have h1 : (joinLines (h :: t)).length = 0 := by rw [hc]; rfl
  have h2 := foldl_join_length t h
  rw [show joinLines (h :: t) = t.foldl (fun a x => a ++ "\n" ++ x) h from rfl] at h1
  omega

theorem format_context_message_ne_empty (ctx : WorkoutContext) :
    format_context_message ctx ≠ "" := by
  unfold format_context_message
  cases ctx.last_workout with
  | none => simp
  | some lw =>
    refine joinLines_cons_ne_empty _ _ ?_
    split_ifs
    · simp only [String.length_append]
      have : 0 < ("⚠️ Llevas " : String).length := by decide
      omega
    · decide
    · simp only [String.length_append]
      have : 0 < ("💪 " : String).length := by decide
      omega

/-- C2: for a CONDITIONAL/no_training job with threshold 48, evaluation when
`hours_since_last` is exactly 48.0 does not trigger, while 48.1 does: the
comparison against the threshold is strictly greater-than. -/
theorem C2_no_training_boundary (job : ReminderJob) (nowIso : String)
    (store : JobStoreState) (w : WorkoutEntry) (ts1 ts2 : ℚ)
    (htt : job.intent.trigger_type = TriggerType.CONDITIONAL)
    (hcond : List.lookup "condition" job.intent.trigger_data = some (PVal.s "no_training"))
    (hhours : List.lookup "hours" job.intent.trigger_data = some (PVal.i 48))
    (h1 : (ts1 - w.fecha.ts) / 3600 = 48)
    (h2 : (ts2 - w.fecha.ts) / 3600 = 481 / 10) :
    (check_job nowIso ts1 (some w) store job).result = none ∧
    ((check_job nowIso ts2 (some w) store job).result).isSome = true := by
  constructor
  · simp only [check_job, htt, hcond, tdInt, hhours, build_context, Option.map_some']
    rw [h1]
    norm_num
  · simp only [check_job, htt, hcond, tdInt, hhours, build_context, Option.map_some']
    rw [h2]
    norm_num

/-- Sample last workout used to instantiate the scheduler theorems. -/
theorem C2_no_training_boundary_witness :
    (check_job "2026-02-22T00:00:00" 172800 (some sampleWorkout) [] sampleJob48).result =
      none ∧
    ((check_job "2026-02-22T00:00:00" 173160 (some sampleWorkout) [] sampleJob48).result).isSome =
      true :=
  C2_no_training_boundary sampleJob48 "2026-02-22T00:00:00" [] sampleWorkout 172800 173160
    rfl rfl rfl (by norm_num [sampleWorkout]) (by norm_num [sampleWorkout])

/-- C3: a CONDITIONAL/no_training job with threshold 24, evaluated when
`hours_since_last` is 30, has its `trigger_count` incremented by exactly 1,
is persisted to the local store, and yields a trigger result whose message is
a non-empty string. -/
theorem C3_no_training_increments (job : ReminderJob) (nowIso : String)
    (store : JobStoreState) (w : WorkoutEntry) (ts : ℚ)
    (htt : job.intent.trigger_type = TriggerType.CONDITIONAL)
    (hcond : List.lookup "condition" job.intent.trigger_data = some (PVal.s "no_training"))
    (hhours : List.lookup "hours" job.intent.trigger_data = some (PVal.i 24))
    (hts : (ts - w.fecha.ts) / 3600 = 30) :
    (check_job nowIso ts (some w) store job).job.trigger_count = job.trigger_count + 1 ∧
    (check_job nowIso ts (some w) store job).store =
      storeSave store ((check_job nowIso ts (some w) store job).job) ∧
    ∃ r, (check_job nowIso ts (some w) store job).result = some r ∧ r.message ≠ "" := by
  refine ⟨?_, ?_, ?_⟩ <;>
    · simp only [check_job, htt, hcond, tdInt, hhours, build_context, Option.map_some']
      rw [hts]
      norm_num
      try exact format_context_message_ne_empty _

theorem C3_no_training_increments_witness :
    (check_job "2026-02-21T06:00:00" 108000 (some sampleWorkout) [] sampleJob24).job.trigger_count =
      sampleJob24.trigger_count + 1 ∧
    (check_job "2026-02-21T06:00:00" 108000 (some sampleWorkout) [] sampleJob24).store =
      storeSave []
        ((check_job "2026-02-21T06:00:00" 108000 (some sampleWorkout) [] sampleJob24).job) ∧
    ∃ r,
      (check_job "2026-02-21T06:00:00" 108000 (some sampleWorkout) [] sampleJob24).result =
        some r ∧ r.message ≠ "" :=
  C3_no_training_increments sampleJob24 "2026-02-21T06:00:00" [] sampleWorkout 108000
    rfl rfl rfl (by norm_num [sampleWorkout])

/-- C8: an EVENT_BASED/deload job whose `days_until_deload` is at most
`days_before` returns a trigger result but leaves `trigger_count` unchanged
(and does not write the store), unlike the no_training branch. -/
theorem C8_deload_trigger_keeps_count (job : ReminderJob) (nowIso : String)
    (lw : Option WorkoutEntry) (store : JobStoreState) (ts : ℚ) (D : ℤ)
    (htt : job.intent.trigger_type = TriggerType.EVENT_BASED)
    (hev : List.lookup "event" job.intent.trigger_data = some (PVal.s "deload"))
    (hdb : List.lookup "days_before" job.intent.trigger_data = some (PVal.i D))
    (hle : days_until_deload (build_context ts none) ≤ D) :
    ((check_job nowIso ts lw store job).result).isSome = true ∧
    (check_job nowIso ts lw store job).job.trigger_count = job.trigger_count ∧
    (check_job nowIso ts lw store job).store = store := by
  simp only [check_job, htt, hev, tdInt, hdb]
  rw [if_pos hle]
  exact ⟨rfl, rfl, rfl⟩

theorem C8_deload_trigger_keeps_count_witness :
    ((check_job "2026-03-13T00:00:00" 1814400 none [] sampleJobDeload).result).isSome = true ∧
    (check_job "2026-03-13T00:00:00" 1814400 none [] sampleJobDeload).job.trigger_count =
      sampleJobDeload.trigger_count ∧
    (check_job "2026-03-13T00:00:00" 1814400 none [] sampleJobDeload).store = [] :=
  C8_deload_trigger_keeps_count sampleJobDeload "2026-03-13T00:00:00" none [] 1814400 3
    rfl rfl rfl
    (by norm_num [days_until_deload, build_context, get_cycle_state, MACRO_CYCLE_LENGTH,
      PROGRAM_START_TS])

end Forzudo

